import Mathlib

/-!
# Verification of the micro-jpeg usage-quota and caching core

Shallow embedding of the quota-ledger, window-reset, scope-resolution and
result-cache/in-flight-deduplication code of the repository
(`src/shared/schema.ts`, `src/server/usageTracker.ts`,
`src/server/scopeMiddleware.ts`,
`src/attached_assets/performance-caching_1757404672749.js`), together with
theorems settling the behavioural claims about that code.

Timestamps are modelled as milliseconds since the Unix epoch (`Nat`).  The
JavaScript source computes calendar buckets with `setHours(0,0,0,0)` /
`setMinutes(0,0,0)` in local time; the embedding uses the UTC-aligned floors
(`t / 86400000 * 86400000`, `t / 3600000 * 3600000`), i.e. a fixed timezone
offset of zero, which is the standard deployment configuration.
-/

namespace MicroJpeg

/-! ## Quota Ledger counters (`UnifiedOperationCounter` / `ScopedOperationCounter`)

`recordOperation` (schema.ts:885-911) and `recordScopedOperation`
(schema.ts:1466-1501) increment the three usage counters of one identity's
row with a single SQL `UPDATE ... SET c = c + 1` statement, executed
atomically by the database.  The `updatedAt` / `lastOperationAt` timestamp
columns set by the same statement are not referenced by any claim and are
not modelled. -/

/-- One identity's counter record: `monthlyUsed`, `dailyUsed`, `hourlyUsed`
(`monthlyOperationsUsed`/`dailyOperationsUsed`/`hourlyOperationsUsed` on the
`anonymous_sessions` table). -/
structure Counters where
  monthly : Nat
  daily : Nat
  hourly : Nat
  deriving DecidableEq, Repr

/-- The effect of the single atomic `UPDATE` statement issued by
`recordOperation` / `recordScopedOperation`: all three counters of the row
are incremented by 1 (schema.ts:902-910, schema.ts:1487-1500). -/
def incrementAll (c : Counters) : Counters :=
  { monthly := c.monthly + 1, daily := c.daily + 1, hourly := c.hourly + 1 }

/-- An atomic database statement observed by the counter table: the
`INSERT` into `operations_log` (schema.ts:885) or the counter `UPDATE`
keyed by the identity (schema.ts:902/1487).  Each `recordOperation` call
issues one `logOp` followed by one `incOp` for its identity key. -/
inductive DbEvent where
  | logOp (key : String)
  | incOp (key : String)
  deriving DecidableEq, Repr

/-- The counter table, keyed by identity (sessionId, userId, or
(sessionId, scope) pair encoded as one key string). -/
def CounterTable : Type := String → Counters

/-- Apply one atomic database statement to the counter table.  A log insert
does not touch the counters; an increment statement updates exactly the row
whose key matches its `WHERE` clause. -/
def applyEvent (t : CounterTable) : DbEvent → CounterTable
  | .logOp _ => t
  | .incOp k => fun k' => if k' = k then incrementAll (t k') else t k'

/-- Execute an arbitrary interleaving (schedule) of atomic database
statements.  Because every `recordOperation` call delegates its increment to
one atomic statement, any concurrent execution of N calls is some such
schedule containing their N increment statements in some order. -/
def applySchedule (evs : List DbEvent) (t : CounterTable) : CounterTable :=
  evs.foldl applyEvent t

/-- Number of increment statements for identity `k` in a schedule. -/
def incCount (evs : List DbEvent) (k : String) : Nat :=
  evs.count (.incOp k)

/-! ## Window Reset Engine (schema.ts:687-727, usageTracker.ts:64-96) -/

/-- Milliseconds in 24 hours. -/
def dayMs : Nat := 24 * 60 * 60 * 1000

/-- Milliseconds in one hour. -/
def hourMs : Nat := 60 * 60 * 1000

/-- Milliseconds in the fixed 30-day "month" window
(`30 * 24 * 60 * 60 * 1000`, schema.ts:694). -/
def monthMs : Nat := 30 * 24 * 60 * 60 * 1000

/-- `today.setHours(0,0,0,0)` (schema.ts:704): floor to midnight. -/
def floorDay (t : Nat) : Nat := t / dayMs * dayMs

/-- `currentHour.setMinutes(0,0,0)` (schema.ts:714): floor to the hour. -/
def floorHour (t : Nat) : Nat := t / hourMs * hourMs

/-- Monthly reset predicate of `getAnonymousSession` (schema.ts:694-695):
`monthsElapsed = Math.floor((now - currentPeriodStart) / monthMs)` and reset
iff `monthsElapsed >= 1`.  With `Nat` subtraction a clock running backwards
(`now < start`) truncates to 0, matching the JavaScript behaviour where the
negative quotient floors below 1: the predicate is false either way. -/
def anonMonthlyResetDue (now currentPeriodStart : Nat) : Bool :=
  1 ≤ (now - currentPeriodStart) / monthMs

/-- Monthly reset predicate of `getUserOperationCounts` (schema.ts:751):
`now.getTime() - lastOperation.getTime() > 30 * 24 * 60 * 60 * 1000` —
a STRICT inequality, referenced to `lastOperationAt`. -/
def userMonthlyResetDue (now lastOperationAt : Nat) : Bool :=
  monthMs < now - lastOperationAt

/-- Daily reset predicate (schema.ts:702-709): `lastDailyReset < today`
where `today` is `now` floored to midnight. -/
def dailyResetDue (lastDailyReset now : Nat) : Bool :=
  lastDailyReset < floorDay now

/-- Hourly reset predicate (schema.ts:712-719): `lastHourlyReset <
currentHour` where `currentHour` is `now` floored to the hour. -/
def hourlyResetDue (lastHourlyReset now : Nat) : Bool :=
  lastHourlyReset < floorHour now

/-- Daily reset predicate of `UsageTracker.getUsage` (usageTracker.ts:68-70):
`now.getDate() !== lastReset.getDate() || now.getMonth() !== ... ||
now.getFullYear() !== ...`, i.e. the two instants lie on different calendar
days; with a fixed timezone this is exactly inequality of the midnight
floors. -/
def usageTrackerDailyResetDue (lastReset now : Nat) : Bool :=
  floorDay lastReset ≠ floorDay now

/-- An `anonymous_sessions` row as read and updated by
`getAnonymousSession` (schema.ts:665-730).  Timestamp columns are nullable
(`Option`). -/
structure AnonSession where
  monthlyOperationsUsed : Nat
  dailyOperationsUsed : Nat
  hourlyOperationsUsed : Nat
  currentPeriodStart : Option Nat
  lastDailyReset : Option Nat
  lastHourlyReset : Option Nat
  deriving DecidableEq, Repr

/-- The reset phase of `getAnonymousSession` (schema.ts:687-727): the three
predicates are evaluated against the row as read (`session.*`), the
accumulated `updates` object is applied once, and the updated row is
returned.  A missing `currentPeriodStart` is treated as `now`
(schema.ts:693) and missing `lastDailyReset`/`lastHourlyReset` as
`new Date(0)` (schema.ts:702/712). -/
def applyResets (now : Nat) (s : AnonSession) : AnonSession :=
  let s1 :=
    if anonMonthlyResetDue now (s.currentPeriodStart.getD now) then
      { s with monthlyOperationsUsed := 0, currentPeriodStart := some now }
    else s
  let s2 :=
    if dailyResetDue (s.lastDailyReset.getD 0) now then
      { s1 with dailyOperationsUsed := 0, lastDailyReset := some now }
    else s1
  if hourlyResetDue (s.lastHourlyReset.getD 0) now then
    { s2 with hourlyOperationsUsed := 0, lastHourlyReset := some now }
  else s2

/-- A `usage_tracking` row as read and updated by `UsageTracker.getUsage`
(usageTracker.ts:64-96). -/
structure UsageRecord where
  totalCompressions : Nat
  totalConversions : Nat
  dailyCompressions : Nat
  dailyConversions : Nat
  lastResetDate : Option Nat
  deriving DecidableEq, Repr

/-- The daily-reset phase of `UsageTracker.getUsage` (usageTracker.ts:64-96):
if `lastResetDate` is on a different calendar day than `now`, both daily
counters are zeroed and `lastResetDate` becomes `now`.  A missing
`lastResetDate` is treated as `now` (usageTracker.ts:67), so a fresh record
is not reset. -/
def getUsageApplyReset (now : Nat) (r : UsageRecord) : UsageRecord :=
  if usageTrackerDailyResetDue (r.lastResetDate.getD now) now then
    { r with dailyCompressions := 0, dailyConversions := 0, lastResetDate := some now }
  else r

/-! ## Cache TTL (`PerformanceOptimizer.calculateTTL`, performance-caching js:142-157) -/

/-- `String.prototype.toUpperCase` restricted to the ASCII format names the
cache deals in: uppercase each character. -/
def jsToUpper (s : String) : String :=
  String.mk (s.data.map Char.toUpper)

/-- `calculateTTL(params)`: `baseTTL = 3600`; multipliers RAW:4, AVIF:2,
WEBP:1.5, JPG:1, default 1, applied to `params.format?.toUpperCase()` and
floored.  `3600 * 1.5` is exact in IEEE doubles, so the WEBP branch is the
integer `5400`; it is written `3600 * 3 / 2` here. -/
def calculateTTL (format : Option String) : Nat :=
  let baseTTL := 3600
  match format with
  | none => baseTTL
  | some f =>
    let fu := jsToUpper f
    if fu = "RAW" then baseTTL * 4
    else if fu = "AVIF" then baseTTL * 2
    else if fu = "WEBP" then baseTTL * 3 / 2
    else if fu = "JPG" then baseTTL * 1
    else baseTTL * 1

/-! ## JavaScript string truthiness helpers

The middleware reads request fields with `a || b` chains and truthiness
tests; for string-valued fields the only falsy string is `""`. -/

/-- `String.prototype.startsWith` restricted to the plain-ASCII session ids
involved: the pattern's characters are a prefix of the subject's. -/
def jsStartsWith (s pat : String) : Bool :=
  pat.data.isPrefixOf s.data

/-- Normalize a possibly-absent string field to its truthiness: `""` is
falsy and behaves like an absent value. -/
def jsStr : Option String → Option String
  | some "" => none
  | o => o

/-- `a || b` on string-valued fields, as consumed by a truthiness test. -/
def jsOrStr (a b : Option String) : Option String :=
  match jsStr a with
  | some s => some s
  | none => jsStr b

/-! ## Plan limit checks

`UsageTracker.checkLimit` (usageTracker.ts:144-168) is in the sources.
`checkOperationLimits` lives in `server/unifiedPlanConfig.ts`, which is not
among the provided sources (only its callers `checkOperationAllowed`,
`checkScopedLimits` and `checkLimit` are); it is modelled from the spec
below. -/

/-- Result shape of `UsageTracker.checkLimit` (without the echoed usage
record). -/
structure CheckLimitRes where
  allowed : Bool
  remaining : Nat
  deriving DecidableEq, Repr

/-- Pure core of `UsageTracker.checkLimit` (usageTracker.ts:156-162):
`allowed = operationCount <= userPlan.limits.monthlyOperations` and
`remaining = Math.max(0, monthlyLimit - (monthlyCompressions +
monthlyConversions))` (`Nat` subtraction is the clamped subtraction).  No
`limitType` is produced and the daily/hourly windows are not consulted. -/
def checkLimit (monthlyOperationsLimit monthlyCompressions monthlyConversions
    operationCount : Nat) : CheckLimitRes :=
  { allowed := decide (operationCount ≤ monthlyOperationsLimit),
    remaining := monthlyOperationsLimit - (monthlyCompressions + monthlyConversions) }

/-- The three rate windows. -/
inductive LimitType where
  | monthly
  | daily
  | hourly
  deriving DecidableEq, Repr

/-- Result shape of `checkOperationLimits`, as consumed by
`checkOperationAllowed` (schema.ts:836-846). -/
structure OpLimitCheck where
  allowed : Bool
  limitType : Option LimitType
  remaining : Nat
  deriving DecidableEq, Repr

/-- A window with limit `some lim` is violated when `used + requestedOps`
exceeds it; a `none` (unlimited) window is never violated. -/
def windowViolated : Option Nat → Nat → Nat → Bool
  | none, _, _ => false
  | some lim, used, req => decide (lim < used + req)

/-- Minimum headroom (`limit - used`) across the finite windows; 0 when no
window is finite. -/
def minFiniteHeadroom (ml dl hl : Option Nat) (mu du hu : Nat) : Nat :=
  match (([(ml, mu), (dl, du), (hl, hu)] : List (Option Nat × Nat)).filterMap
      fun p => p.1.map (· - p.2)).min? with
  | some m => m
  | none => 0

/-- Modelled from the spec: `checkOperationLimits(planId, monthlyUsed,
dailyUsed, hourlyUsed, requestedOps)` of `server/unifiedPlanConfig.ts` is
not among the provided sources.  Spec §4.2/§4.4: evaluate
`monthlyUsed+requestedOps <= monthlyLimit` (if finite), then daily, then
hourly, in that order; report the first violated window as `limitType`;
`remaining` is the minimum headroom across all finite windows; `null`
(unlimited) limits are always satisfied.  The plan table lookup is elided:
the three limits are passed directly. -/
def checkOperationLimits (ml dl hl : Option Nat) (mu du hu reqOps : Nat) : OpLimitCheck :=
  let remaining := minFiniteHeadroom ml dl hl mu du hu
  if windowViolated ml mu reqOps then ⟨false, some .monthly, remaining⟩
  else if windowViolated dl du reqOps then ⟨false, some .daily, remaining⟩
  else if windowViolated hl hu reqOps then ⟨false, some .hourly, remaining⟩
  else ⟨true, none, remaining⟩

/-! ## Anonymous session identity (`generateAnonymousSessionId`,
schema.ts:642-660, and `getSessionIdFromRequest`, scopeMiddleware.ts:229-243) -/

/-- The request fields read by the anonymous-identity functions.  `ip`
stands for `req.ip || req.connection.remoteAddress`. -/
structure AnonReq where
  headerSessionId : Option String
  bodyClientSessionId : Option String
  ip : Option String
  userAgent : Option String
  deriving DecidableEq, Repr

/-- The fallback identity (schema.ts:650-659): `anon_` followed by the first
16 hex digits of the SHA-256 of `ip + ":" + userAgent`.  The hash primitive
is the external `crypto` collaborator, passed as a parameter. -/
def anonFallbackId (sha256hex16 : String → String) (r : AnonReq) : String :=
  "anon_" ++ sha256hex16 (((jsStr r.ip).getD "unknown") ++ ":" ++
    ((jsStr r.userAgent).getD "unknown"))

/-- `UnifiedOperationCounter.generateAnonymousSessionId` (schema.ts:642-660):
prefer `req.headers['x-session-id'] || req.body?.clientSessionId` when it is
a string starting with `mj_client_`; otherwise hash IP + User-Agent. -/
def generateAnonymousSessionId (sha256hex16 : String → String) (r : AnonReq) : String :=
  match jsOrStr r.headerSessionId r.bodyClientSessionId with
  | some s => if jsStartsWith s "mj_client_" then s else anonFallbackId sha256hex16 r
  | none => anonFallbackId sha256hex16 r

/-- `getSessionIdFromRequest` (scopeMiddleware.ts:229-243): same
client-supplied preference; the fallback is the Express session id when
present, else the literal `"fallback_session"`. -/
def getSessionIdFromRequest (r : AnonReq) (expressSessionId : Option String) : String :=
  let fallback := match jsStr expressSessionId with
    | some sid => sid
    | none => "fallback_session"
  match jsOrStr r.headerSessionId r.bodyClientSessionId with
  | some s => if jsStartsWith s "mj_client_" then s else fallback
  | none => fallback

/-! ## Scope resolution (`requireScopeFromAuth`, scopeMiddleware.ts:45-194) -/

/-- The database row returned by `storage.getUser`, reduced to the field the
middleware consumes: `getUserPlan(user).id`, the plan derived from the
user's subscription (plan-table code is in `unifiedPlanConfig.ts`, outside
the provided sources, so the derived plan id is carried directly). -/
structure UserRec where
  planId : String
  deriving DecidableEq, Repr

/-- The request fields read (or merely logged) by `requireScopeFromAuth`. -/
structure ScopeReq where
  /-- `req.context?.pageIdentifier` set by `pageIdentifierMiddleware`. -/
  pageIdentifier : Option String
  /-- `req.context?.pageScope` set by `pageIdentifierMiddleware`. -/
  pageScope : Option String
  /-- `req.body?.pageSource` (client-supplied). -/
  bodyPageSource : Option String
  /-- `req.query?.pageSource` (client-supplied). -/
  queryPageSource : Option String
  /-- `req.query?.planId` (client-supplied). -/
  queryPlanId : Option String
  /-- `req.query.scope` (client-supplied; only logged, scopeMiddleware.ts:182). -/
  queryScope : Option String
  /-- `req.headers['x-usage-scope']` (client-supplied; only logged). -/
  headerUsageScope : Option String
  /-- `req.headers['x-plan-id']` (client-supplied; only logged). -/
  headerPlanId : Option String
  /-- `req.isAuthenticated && req.isAuthenticated() && req.user` present. -/
  isAuthenticated : Bool
  /-- `req.user.claims?.sub`. -/
  userClaimsSub : Option String
  /-- `req.session?.userId`. -/
  sessionUserId : Option String
  /-- Result of `storage.getUser(userId)`: `none` when not found. -/
  dbUser : Option UserRec
  deriving DecidableEq, Repr

/-- `pageSource`-to-scope fallback mapping (scopeMiddleware.ts:65-84). -/
def pageSourceScope : String → String
  | "premium" => "pro"
  | "enterprise" => "enterprise"
  | "test-premium" => "test_premium"
  | "cr2-converter" => "cr2-free"
  | "free" => "free"
  | "free-signed" => "free"
  | _ => "main"

/-- `planId`-query-parameter-to-scope mapping (scopeMiddleware.ts:89-110). -/
def planIdScope : String → String
  | "pro" => "pro"
  | "enterprise" => "enterprise"
  | "test_premium" => "test_premium"
  | "cr2-free" => "cr2-free"
  | "free" => "free"
  | "anonymous" => "main"
  | _ => "main"

/-- STEP 1 of `requireScopeFromAuth` (scopeMiddleware.ts:50-111): scope from
`pageIdentifier`/`pageScope` when both present, else from
`req.body?.pageSource || req.query?.pageSource`, else from
`req.query?.planId`, else the default `"main"`. -/
def step1Scope (r : ScopeReq) : String :=
  match jsStr r.pageIdentifier, jsStr r.pageScope with
  | some _, some ps => ps
  | _, _ =>
    match jsOrStr r.bodyPageSource r.queryPageSource with
    | some src => pageSourceScope src
    | none =>
      match jsStr r.queryPlanId with
      | some pid => planIdScope pid
      | none => "main"

/-- The authenticated user id (scopeMiddleware.ts:114-121): claims subject
when authenticated, else the session's `userId`, with a second fallback to
the session's `userId`. -/
def resolvedUserId (r : ScopeReq) : Option String :=
  let userId := if r.isAuthenticated then jsStr r.userClaimsSub else jsStr r.sessionUserId
  match userId with
  | some uid => some uid
  | none => jsStr r.sessionUserId

/-- Outcome of `requireScopeFromAuth`: either the request proceeds with the
resolved `(scope, planId)` pair set on the request object, or it is rejected
with an HTTP status and error message. -/
inductive ScopeResult where
  | ok (scope planId : String)
  | denied (status : Nat) (error : String)
  deriving DecidableEq, Repr

/-- `requireScopeFromAuth` (scopeMiddleware.ts:45-194).  STEP 2/3: an
authenticated user found in the database gets their subscription-derived
plan and must hold the matching subscription for the `pro` / `enterprise` /
`test_premium` scopes; an authenticated-but-unknown user is treated as
anonymous; an anonymous user may only resolve the public scopes `main`,
`free`, `cr2-free` and is otherwise denied.  The `queryScope`,
`headerUsageScope` and `headerPlanId` fields are only logged
(scopeMiddleware.ts:181-186) and never read by the computation. -/
def requireScopeFromAuth (r : ScopeReq) : ScopeResult :=
  let scope := step1Scope r
  match resolvedUserId r with
  | some _uid =>
    match r.dbUser with
    | some user =>
      let planId := user.planId
      if scope ∈ (["pro", "enterprise", "test_premium", "free"] : List String) then
        if scope = "pro" ∧ planId ≠ "pro" then
          .denied 403 "Premium subscription required"
        else if scope = "enterprise" ∧ planId ≠ "enterprise" then
          .denied 403 "Enterprise subscription required"
        else if scope = "test_premium" ∧ planId ≠ "test_premium" then
          .denied 403 "Test premium subscription required"
        else .ok scope planId
      else .ok scope planId
    | none =>
      if scope ∈ (["premium", "enterprise", "test_premium"] : List String) then
        .denied 403 "Authentication required"
      else .ok scope "anonymous"
  | none =>
    if scope ∈ (["main", "free", "cr2-free"] : List String) then
      .ok scope (if scope = "cr2-free" then "cr2-free" else "anonymous")
    else .denied 403 "Authentication required"

/-! ## Result cache and in-flight deduplication
(`PerformanceOptimizer.getCachedOrProcess`, performance-caching js:19-78)

All callers for one fingerprint share the L1 in-memory map entry, the L2
Redis `cache:` entry and the Redis `progress:` marker.  Each `await`ed
helper call (`checkCache`, `checkInProgress`, one `waitForResult` poll
iteration, `markInProgress`, `processFunction`, `cacheResult`,
`clearInProgress`) is one atomic step; a concurrent execution is an
interleaving of the callers' steps.  Result payloads are modelled as `Nat`;
the compute function's outcome is `some v` (success with value `v`) or
`none` (it throws). -/

/-- Shared state for one fingerprint: L1 entry, L2 entry, in-flight marker,
and the number of `processFunction` invocations so far. -/
structure CacheSys where
  mem : Option Nat
  redis : Option Nat
  marker : Bool
  computeCount : Nat
  deriving DecidableEq, Repr

/-- Control state of one `getCachedOrProcess` call. -/
inductive CallPhase where
  /-- About to `checkCache` (js:26). -/
  | start
  /-- Cache missed; about to `checkInProgress` (js:44). -/
  | missed
  /-- Inside the `waitForResult` poll loop (js:171-188); `fuel` is the
  number of remaining 500 ms poll iterations before the 30 s timeout. -/
  | waiting (fuel : Nat)
  /-- About to `markInProgress` (js:54). -/
  | marking
  /-- Marker set; about to invoke `processFunction` (js:58). -/
  | computing
  /-- Compute succeeded with `v`; about to `cacheResult` (js:61). -/
  | caching (v : Nat)
  /-- Result cached; about to `clearInProgress` (js:64) and return. -/
  | clearing (v : Nat)
  /-- Compute threw; about to `clearInProgress` (js:75) and rethrow. -/
  | failing
  /-- Returned: `some v` is a served result, `none` a propagated failure. -/
  | done (r : Option Nat)
  deriving DecidableEq, Repr

/-- `30000 / 500`: poll iterations of `waitForResult` before timeout. -/
def waitFuel : Nat := 60

/-- One atomic step of one caller.  `checkCache` (js:98-117) consults L1
then L2, promoting an L2 hit into L1.  When `waitForResult` finds the
marker gone without a result, or times out, it returns `null` and the
caller falls through to `markInProgress` (js:45-54).  `markInProgress` is a
plain `SETEX` — an unconditional write, not set-if-absent (js:163-165). -/
def step (computeFn : Option Nat) (s : CacheSys) : CallPhase → CacheSys × CallPhase
  | .start =>
    match s.mem with
    | some v => (s, .done (some v))
    | none =>
      match s.redis with
      | some v => ({ s with mem := some v }, .done (some v))
      | none => (s, .missed)
  | .missed => (s, if s.marker then .waiting waitFuel else .marking)
  | .waiting 0 => (s, .marking)
  | .waiting (fuel + 1) =>
    match s.mem with
    | some v => (s, .done (some v))
    | none =>
      match s.redis with
      | some v => ({ s with mem := some v }, .done (some v))
      | none => if s.marker then (s, .waiting fuel) else (s, .marking)
  | .marking => ({ s with marker := true }, .computing)
  | .computing =>
    match computeFn with
    | some v => ({ s with computeCount := s.computeCount + 1 }, .caching v)
    | none => ({ s with computeCount := s.computeCount + 1 }, .failing)
  | .caching v => ({ s with redis := some v, mem := some v }, .clearing v)
  | .clearing v => ({ s with marker := false }, .done (some v))
  | .failing => ({ s with marker := false }, .done none)
  | .done r => (s, .done r)

/-- Two concurrent callers for the same fingerprint: the shared state and
each caller's control state. -/
structure TwoCalls where
  sys : CacheSys
  p1 : CallPhase
  p2 : CallPhase
  deriving DecidableEq, Repr

/-- Let the scheduled caller (`true` = first) take one atomic step. -/
def sched2 (fn1 fn2 : Option Nat) (t : TwoCalls) : Bool → TwoCalls
  | true => let (s, p) := step fn1 t.sys t.p1; { t with sys := s, p1 := p }
  | false => let (s, p) := step fn2 t.sys t.p2; { t with sys := s, p2 := p }

/-- Run a concrete interleaving of the two callers. -/
def run2 (fn1 fn2 : Option Nat) (schedule : List Bool) (t : TwoCalls) : TwoCalls :=
  schedule.foldl (sched2 fn1 fn2) t

/-- Run one caller alone for at most `fuel` steps (it stops at `done`).
This is the serialized execution of a single `getCachedOrProcess` call. -/
def runCall (computeFn : Option Nat) : Nat → CacheSys → CallPhase → CacheSys × CallPhase
  | 0, s, p => (s, p)
  | fuel + 1, s, p =>
    match p with
    | .done r => (s, .done r)
    | _ =>
      let (s', p') := step computeFn s p
      runCall computeFn fuel s' p'

/-- The empty initial state: nothing cached, no marker, no computations. -/
def initSys : CacheSys := { mem := none, redis := none, marker := false, computeCount := 0 }

/-- `k` serialized `getCachedOrProcess` calls, each run to completion before
the next starts; returns the final shared state and each call's result. -/
def serialRuns (computeFn : Option Nat) : Nat → CacheSys → CacheSys × List (Option Nat)
  | 0, s => (s, [])
  | k + 1, s =>
    let (s', p) := runCall computeFn 10 s .start
    let r := match p with
      | .done r => r
      | _ => none
    let (sEnd, rs) := serialRuns computeFn k s'
    (sEnd, r :: rs)

/-- A request carrying none of the optional fields: unauthenticated, no page
identifier, no client-supplied source/plan/scope values. -/
def anonBareRequest : ScopeReq :=
  { pageIdentifier := none, pageScope := none, bodyPageSource := none,
    queryPageSource := none, queryPlanId := none, queryScope := none,
    headerUsageScope := none, headerPlanId := none, isAuthenticated := false,
    userClaimsSub := none, sessionUserId := none, dbUser := none }

/-! ## Theorems -/

/-- C9: the TTLs `calculateTTL` assigns under its base configuration
(`baseTTL = 3600`) are strictly ordered RAW > AVIF > WebP > JPEG; in
particular the RAW TTL strictly exceeds the JPEG TTL. -/
theorem calculateTTL_format_ordering :
    calculateTTL (some "JPG") < calculateTTL (some "WEBP") ∧
    calculateTTL (some "WEBP") < calculateTTL (some "AVIF") ∧
    calculateTTL (some "AVIF") < calculateTTL (some "RAW") ∧
    calculateTTL (some "JPG") < calculateTTL (some "RAW") := by
  decide

/-- C2 counterexample: on the claim's own input — limits `{monthly=10,
daily=5, hourly=2}`, usage `{monthly=9, daily=1, hourly=1}`, 2 requested
operations — the ordered check denies with `limitType = monthly` (monthly is
evaluated first and `9 + 2 > 10`), not `hourly` as the claim states; and
`UsageTracker.checkLimit` does not deny at all: it compares the requested
count against the monthly limit alone (`2 ≤ 10`) and reports no
`limitType`. -/
theorem limitCheck_p3_counterexample :
    (checkOperationLimits (some 10) (some 5) (some 2) 9 1 1 2).limitType =
      some LimitType.monthly ∧
    (checkOperationLimits (some 10) (some 5) (some 2) 9 1 1 2).limitType ≠
      some LimitType.hourly ∧
    (checkOperationLimits (some 10) (some 5) (some 2) 9 1 1 2).allowed = false ∧
    (checkLimit 10 9 0 2).allowed = true := by
  decide

/-- C2 (amended): `checkOperationLimits` evaluates monthly, then daily, then
hourly, in that order; the first violated window is `limitType`; a request
passes iff it violates no window; `null` (unlimited) limits are always
satisfied; `remaining` is the minimum headroom across the finite windows.
On limits `{monthly=10, daily=5, hourly=2}` with usage `{9, 1, 1}` and 2
requested operations the result is denial with `limitType = monthly` and
`remaining = 1` — not `hourly`.  `UsageTracker.checkLimit` does not
implement this check: on the same numbers it allows the request, comparing
only the requested count against the monthly limit. -/
theorem checkOperationLimits_ordered (ml dl hl : Option Nat) (mu du hu reqOps : Nat) :
    ((checkOperationLimits ml dl hl mu du hu reqOps).allowed = true ↔
      windowViolated ml mu reqOps = false ∧ windowViolated dl du reqOps = false ∧
        windowViolated hl hu reqOps = false) ∧
    (windowViolated ml mu reqOps = true →
      (checkOperationLimits ml dl hl mu du hu reqOps).limitType = some LimitType.monthly) ∧
    (windowViolated ml mu reqOps = false → windowViolated dl du reqOps = true →
      (checkOperationLimits ml dl hl mu du hu reqOps).limitType = some LimitType.daily) ∧
    (windowViolated ml mu reqOps = false → windowViolated dl du reqOps = false →
      windowViolated hl hu reqOps = true →
      (checkOperationLimits ml dl hl mu du hu reqOps).limitType = some LimitType.hourly) ∧
    (checkOperationLimits none none none mu du hu reqOps).allowed = true ∧
    (checkOperationLimits ml dl hl mu du hu reqOps).remaining =
      minFiniteHeadroom ml dl hl mu du hu ∧
    checkOperationLimits (some 10) (some 5) (some 2) 9 1 1 2 =
      { allowed := false, limitType := some LimitType.monthly, remaining := 1 } ∧
    checkLimit 10 9 0 2 = { allowed := true, remaining := 1 } := by
  refine ⟨?_, ?_, ?_, ?_, ?_, ?_, by decide, by decide⟩
  · cases hm : windowViolated ml mu reqOps <;>
      cases hd : windowViolated dl du reqOps <;>
      cases hh : windowViolated hl hu reqOps <;>
      simp [checkOperationLimits, hm, hd, hh]
  · intro hm
    simp [checkOperationLimits, hm]
  · intro hm hd
    simp [checkOperationLimits, hm, hd]
  · intro hm hd hh
    simp [checkOperationLimits, hm, hd, hh]
  · simp [checkOperationLimits, windowViolated]
  · cases hm : windowViolated ml mu reqOps <;>
      cases hd : windowViolated dl du reqOps <;>
      cases hh : windowViolated hl hu reqOps <;>
      simp [checkOperationLimits, hm, hd, hh]

/-- C3 counterexample: two requests identical except in the client-supplied
`planId` query parameter resolve to different scopes (`main` vs `free`): the
resolved pair is not independent of client-supplied plan values carried in
the query string. -/
theorem scope_client_planId_counterexample :
    requireScopeFromAuth anonBareRequest = ScopeResult.ok "main" "anonymous" ∧
    requireScopeFromAuth { anonBareRequest with queryPlanId := some "free" } =
      ScopeResult.ok "free" "anonymous" ∧
    requireScopeFromAuth { anonBareRequest with queryPlanId := some "free" } ≠
      requireScopeFromAuth anonBareRequest := by
  decide

/-- C3 (amended): the resolved `(scope, planId)` pair is independent of the
client-supplied values that `requireScopeFromAuth` only logs and discards —
`req.query.scope`, the `x-usage-scope` header and the `x-plan-id` header
(scopeMiddleware.ts:181-186) — while the client-supplied `pageSource`
(body/query) and `planId` (query) values do participate in scope selection
(scopeMiddleware.ts:61-111). -/
theorem scope_ignores_logged_overrides (r : ScopeReq) (qs hus hpl : Option String) :
    requireScopeFromAuth
        { r with queryScope := qs, headerUsageScope := hus, headerPlanId := hpl } =
      requireScopeFromAuth r := rfl

/-- C5 counterexample: at exactly 30×24h elapsed, the registered-user
monthly predicate of `getUserOperationCounts` (strict `>`) does NOT fire —
refuting "true if and only if at least 30×24h have elapsed" — while the
anonymous-session predicate of `getAnonymousSession` does. -/
theorem userMonthly_boundary_counterexample :
    0 + monthMs ≤ monthMs ∧ userMonthlyResetDue monthMs 0 = false ∧
      anonMonthlyResetDue monthMs 0 = true := by
  decide

/-- C5 (amended): the anonymous-session monthly predicate is true iff at
least 30×24h elapsed since `currentPeriodStart`, and when it fires
`getAnonymousSession` returns the record with `monthlyOperationsUsed = 0`
and `currentPeriodStart = now`; the registered-user predicate of
`getUserOperationCounts` is instead true iff STRICTLY more than 30×24h
elapsed since `lastOperationAt`, so at the exact 30-day boundary the
user-side counter is not yet reset. -/
theorem monthly_reset_window (now start lastOp : Nat) (s : AnonSession) :
    (anonMonthlyResetDue now start = true ↔ start + monthMs ≤ now) ∧
    (userMonthlyResetDue now lastOp = true ↔ lastOp + monthMs < now) ∧
    (anonMonthlyResetDue now (s.currentPeriodStart.getD now) = true →
      (applyResets now s).monthlyOperationsUsed = 0 ∧
        (applyResets now s).currentPeriodStart = some now) := by
  refine ⟨?_, ?_, ?_⟩
  · simp only [anonMonthlyResetDue, monthMs, decide_eq_true_eq]
    omega
  · simp only [userMonthlyResetDue, monthMs, decide_eq_true_eq]
    omega
  · intro h
    by_cases hd : dailyResetDue (s.lastDailyReset.getD 0) now = true <;>
      by_cases hh : hourlyResetDue (s.lastHourlyReset.getD 0) now = true <;>
      simp [applyResets, h, hd, hh]

/-- C1: each `recordOperation` / `recordScopedOperation` call adds exactly 1
to all three counters of its identity's record, and because the increment is
one atomic database statement, ANY interleaving of concurrently executing
calls (modelled as a schedule of their atomic statements) leaves the
identity's counters greater by exactly the number of increment statements
for that identity — no lost updates, for any number of concurrent callers
(in particular any N up to and beyond 100). -/
theorem recordOperation_no_lost_increments (evs : List DbEvent) (t : CounterTable)
    (k : String) :
    ((incrementAll (t k)).monthly = (t k).monthly + 1 ∧
      (incrementAll (t k)).daily = (t k).daily + 1 ∧
      (incrementAll (t k)).hourly = (t k).hourly + 1) ∧
    (applySchedule evs t k).monthly = (t k).monthly + incCount evs k ∧
    (applySchedule evs t k).daily = (t k).daily + incCount evs k ∧
    (applySchedule evs t k).hourly = (t k).hourly + incCount evs k := by
  refine ⟨⟨rfl, rfl, rfl⟩, ?_⟩
  induction evs generalizing t with
  | nil => simp [applySchedule, incCount]
  | cons e evs ih =>
    have hstep : applySchedule (e :: evs) t = applySchedule evs (applyEvent t e) := rfl
    rw [hstep]
    obtain ⟨ihm, ihd, ihh⟩ := ih (applyEvent t e)
    cases e with
    | logOp k2 =>
      have ht : applyEvent t (DbEvent.logOp k2) = t := rfl
      have hc : incCount (DbEvent.logOp k2 :: evs) k = incCount evs k := by
        simp [incCount]
      rw [ht] at ihm ihd ihh
      rw [hc]
      exact ⟨ihm, ihd, ihh⟩
    | incOp k2 =>
      by_cases hk : k = k2
      · subst hk
        have ht : applyEvent t (DbEvent.incOp k) k = incrementAll (t k) := by
          simp [applyEvent]
        have hc : incCount (DbEvent.incOp k :: evs) k = incCount evs k + 1 := by
          simp [incCount]
        rw [ht] at ihm ihd ihh
        rw [hc]
        refine ⟨?_, ?_, ?_⟩
        · rw [ihm]; simp [incrementAll]; omega
        · rw [ihd]; simp [incrementAll]; omega
        · rw [ihh]; simp [incrementAll]; omega
      · have ht : applyEvent t (DbEvent.incOp k2) k = t k := by
          simp [applyEvent, hk]
        have hc : incCount (DbEvent.incOp k2 :: evs) k = incCount evs k := by
          have hk2 : ¬(k2 = k) := fun h => hk h.symm
          simp [incCount, List.count_cons, hk2]
        rw [ht] at ihm ihd ihh
        rw [hc]
        exact ⟨ihm, ihd, ihh⟩

/-- C4 counterexample: a concrete interleaving of two concurrent
`getCachedOrProcess` calls with the same fingerprint in which both pass
`checkInProgress` before either reaches `markInProgress`: both run
`processFunction` (`computeCount = 2`), both complete normally.  The
`exactly once` part of the claim fails because `markInProgress` is an
unconditional `SETEX`, not an atomic set-if-absent. -/
theorem getCachedOrProcess_double_compute_counterexample :
    run2 (some 7) (some 7)
        [true, false, true, false, true, true, false, false, true, true, false, false]
        { sys := initSys, p1 := CallPhase.start, p2 := CallPhase.start } =
      { sys := { mem := some 7, redis := some 7, marker := false, computeCount := 2 },
        p1 := CallPhase.done (some 7), p2 := CallPhase.done (some 7) } := by
  decide

/-- A call whose phase is already `done` takes no further steps. -/
theorem runCall_done (fn : Option Nat) (fuel : Nat) (s : CacheSys) (r : Option Nat) :
    runCall fn fuel s (CallPhase.done r) = (s, CallPhase.done r) := by
  cases fuel <;> rfl

/-- A call starting against a warm L1 cache returns the cached value at once
and leaves the state untouched. -/
theorem runCall10_cached (fn : Option Nat) (s : CacheSys) (v : Nat)
    (h : s.mem = some v) :
    runCall fn 10 s CallPhase.start = (s, CallPhase.done (some v)) := by
  rw [show (10 : Nat) = 9 + 1 from rfl]
  unfold runCall
  simp [step, h, runCall_done]

/-- After a first completed call cached `v`, every further serialized call
hits the cache: no more computations, same result every time. -/
theorem serialRuns_cached (v : Nat) (k : Nat) (s : CacheSys) (h : s.mem = some v) :
    serialRuns (some v) k s = (s, List.replicate k (some v)) := by
  induction k with
  | zero => rfl
  | succ k ih =>
    unfold serialRuns
    rw [runCall10_cached _ _ _ h]
    dsimp only
    rw [ih]
    simp [List.replicate_succ]

/-- C4 (amended): at most one in-flight marker per fingerprint exists by
construction (the marker is the single `progress:` key); `k + 1`
`getCachedOrProcess` calls for one fingerprint whose executions do not
interleave (each completes before the next starts) invoke `processFunction`
exactly once, and every call returns the same result.  Under interleaving
the exactly-once guarantee fails (see the counterexample): `markInProgress`
is not set-if-absent. -/
theorem getCachedOrProcess_serialized_single_flight (v k : Nat) :
    (serialRuns (some v) (k + 1) initSys).1.computeCount = 1 ∧
    (serialRuns (some v) (k + 1) initSys).2 = List.replicate (k + 1) (some v) := by
  have hfirst : runCall (some v) 10 initSys CallPhase.start =
      ({ mem := some v, redis := some v, marker := false, computeCount := 1 },
        CallPhase.done (some v)) := rfl
  have h1 : serialRuns (some v) (k + 1) initSys =
      ({ mem := some v, redis := some v, marker := false, computeCount := 1 },
        some v :: List.replicate k (some v)) := by
    unfold serialRuns
    rw [hfirst]
    dsimp only
    rw [serialRuns_cached v k _ rfl]
  rw [h1]
  exact ⟨rfl, (List.replicate_succ _ _).symm⟩

/-- C8: when `processFunction` throws, the `catch` path clears the in-flight
marker and rethrows without caching: from the compute step on, the shared
state ends with `marker = false`, the L1/L2 cache tiers unchanged, and the
call propagates the failure (first conjunct, for every shared state); a
whole failing call from the empty state computes once, caches nothing,
leaves no marker, and propagates the failure (second conjunct). -/
theorem compute_failure_clears_marker_uncached (s : CacheSys) :
    runCall none 2 s CallPhase.computing =
      ({ s with computeCount := s.computeCount + 1, marker := false },
        CallPhase.done none) ∧
    runCall none 10 initSys CallPhase.start =
      ({ mem := none, redis := none, marker := false, computeCount := 1 },
        CallPhase.done none) := by
  exact ⟨rfl, rfl⟩

/-- C6: within one calendar-day (resp. hour-aligned) bucket the daily
(resp. hourly) reset predicates are false; once the bucket boundary is
crossed they are true (so a due reset is never skipped); applying the reset
zeroes the corresponding counters and stamps the last-reset time with `t2`;
and after a reset at `t2` the predicate stays false for any later instant in
`t2`'s bucket (never applied twice for the same boundary). -/
theorem daily_hourly_reset_windows (t1 t2 : Nat) (h12 : t1 < t2) :
    (floorDay t1 = floorDay t2 →
      dailyResetDue t1 t2 = false ∧ usageTrackerDailyResetDue t1 t2 = false) ∧
    (floorDay t1 < floorDay t2 →
      dailyResetDue t1 t2 = true ∧ usageTrackerDailyResetDue t1 t2 = true) ∧
    (floorHour t1 = floorHour t2 → hourlyResetDue t1 t2 = false) ∧
    (floorHour t1 < floorHour t2 → hourlyResetDue t1 t2 = true) ∧
    (∀ s : AnonSession, dailyResetDue (s.lastDailyReset.getD 0) t2 = true →
      (applyResets t2 s).dailyOperationsUsed = 0 ∧
        (applyResets t2 s).lastDailyReset = some t2) ∧
    (∀ s : AnonSession, hourlyResetDue (s.lastHourlyReset.getD 0) t2 = true →
      (applyResets t2 s).hourlyOperationsUsed = 0 ∧
        (applyResets t2 s).lastHourlyReset = some t2) ∧
    (∀ r : UsageRecord, usageTrackerDailyResetDue (r.lastResetDate.getD t2) t2 = true →
      (getUsageApplyReset t2 r).dailyCompressions = 0 ∧
        (getUsageApplyReset t2 r).dailyConversions = 0 ∧
        (getUsageApplyReset t2 r).lastResetDate = some t2) ∧
    (∀ t3, t2 ≤ t3 → floorDay t2 = floorDay t3 → dailyResetDue t2 t3 = false) ∧
    (∀ t3, t2 ≤ t3 → floorHour t2 = floorHour t3 → hourlyResetDue t2 t3 = false) := by
  refine ⟨?_, ?_, ?_, ?_, ?_, ?_, ?_, ?_, ?_⟩
  · intro h
    simp only [floorDay, dayMs] at h
    constructor
    · simp only [dailyResetDue, floorDay, dayMs, decide_eq_false_iff_not, not_lt]
      omega
    · simp only [usageTrackerDailyResetDue, floorDay, dayMs, ne_eq,
        decide_eq_false_iff_not]
      omega
  · intro h
    simp only [floorDay, dayMs] at h
    constructor
    · simp only [dailyResetDue, floorDay, dayMs, decide_eq_true_eq]
      omega
    · simp only [usageTrackerDailyResetDue, floorDay, dayMs, ne_eq, decide_eq_true_eq]
      omega
  · intro h
    simp only [floorHour, hourMs] at h
    simp only [hourlyResetDue, floorHour, hourMs, decide_eq_false_iff_not, not_lt]
    omega
  · intro h
    simp only [floorHour, hourMs] at h
    simp only [hourlyResetDue, floorHour, hourMs, decide_eq_true_eq]
    omega
  · intro s h
    by_cases hm : anonMonthlyResetDue t2 (s.currentPeriodStart.getD t2) = true <;>
      by_cases hh : hourlyResetDue (s.lastHourlyReset.getD 0) t2 = true <;>
      simp [applyResets, hm, hh, h]
  · intro s h
    by_cases hm : anonMonthlyResetDue t2 (s.currentPeriodStart.getD t2) = true <;>
      by_cases hd : dailyResetDue (s.lastDailyReset.getD 0) t2 = true <;>
      simp [applyResets, hm, hd, h]
  · intro r h
    simp [getUsageApplyReset, h]
  · intro t3 h23 hsame
    simp only [floorDay, dayMs] at hsame
    simp only [dailyResetDue, floorDay, dayMs, decide_eq_false_iff_not, not_lt]
    omega
  · intro t3 h23 hsame
    simp only [floorHour, hourMs] at hsame
    simp only [hourlyResetDue, floorHour, hourMs, decide_eq_false_iff_not, not_lt]
    omega

/-- C6 witness: midnight of day 0 to midnight of day 1 crosses a daily
boundary and both daily predicates fire. -/
theorem daily_hourly_reset_windows_witness :
    dailyResetDue 0 dayMs = true ∧ usageTrackerDailyResetDue 0 dayMs = true :=
  (daily_hourly_reset_windows 0 dayMs (by decide)).2.1 (by decide)

/-- C7: an anonymous (unauthenticated) request can only resolve to a scope
in the fixed public allow-list `["main", "free", "cr2-free"]`; whenever the
client-influenced scope selection lands on `"enterprise"` the request is
rejected 403 — never silently downgraded — regardless of any client-supplied
header or parameter. -/
theorem anonymous_scope_allow_list (r : ScopeReq)
    (hanon : resolvedUserId r = none) :
    (∀ scope planId, requireScopeFromAuth r = ScopeResult.ok scope planId →
      scope ∈ (["main", "free", "cr2-free"] : List String)) ∧
    (step1Scope r = "enterprise" →
      requireScopeFromAuth r = ScopeResult.denied 403 "Authentication required") := by
  constructor
  · intro scope planId hok
    unfold requireScopeFromAuth at hok
    rw [hanon] at hok
    dsimp only at hok
    by_cases hmem : step1Scope r ∈ (["main", "free", "cr2-free"] : List String)
    · rw [if_pos hmem] at hok
      cases hok
      exact hmem
    · rw [if_neg hmem] at hok
      cases hok
  · intro hent
    unfold requireScopeFromAuth
    rw [hanon]
    dsimp only
    rw [hent, if_neg (by decide)]

/-- C7 witness: an anonymous request whose client-supplied `pageSource`
claims `enterprise` is denied 403. -/
theorem anonymous_scope_allow_list_witness :
    requireScopeFromAuth { anonBareRequest with bodyPageSource := some "enterprise" } =
      ScopeResult.denied 403 "Authentication required" :=
  (anonymous_scope_allow_list
      { anonBareRequest with bodyPageSource := some "enterprise" } (by decide)).2
    (by decide)

/-- C10: whenever `req.headers['x-session-id'] || req.body?.clientSessionId`
is a string beginning with `mj_client_`, both
`generateAnonymousSessionId` (the quota-counter identity) and
`getSessionIdFromRequest` return exactly that client-supplied string — the
anonymous identity under which usage is counted is client-chosen; only when
no such value is present does `generateAnonymousSessionId` fall back to
`anon_` + hash(IP + `:` + User-Agent). -/
theorem client_session_id_chooses_identity (sha256hex16 : String → String)
    (r : AnonReq) (esid : Option String) :
    (∀ s, jsOrStr r.headerSessionId r.bodyClientSessionId = some s →
      jsStartsWith s "mj_client_" = true →
      generateAnonymousSessionId sha256hex16 r = s ∧
        getSessionIdFromRequest r esid = s) ∧
    ((∀ s, jsOrStr r.headerSessionId r.bodyClientSessionId = some s →
        jsStartsWith s "mj_client_" = false) →
      generateAnonymousSessionId sha256hex16 r = anonFallbackId sha256hex16 r) := by
  constructor
  · intro s hs hpre
    constructor
    · unfold generateAnonymousSessionId
      rw [hs]
      simp [hpre]
    · unfold getSessionIdFromRequest
      rw [hs]
      simp [hpre]
  · intro hall
    unfold generateAnonymousSessionId
    cases hj : jsOrStr r.headerSessionId r.bodyClientSessionId with
    | none => rfl
    | some s =>
      have hns := hall s hj
      simp [hns]

/-- C10 witness: a request presenting `x-session-id: mj_client_w` is counted
under exactly that identity. -/
theorem client_session_id_chooses_identity_witness :
    generateAnonymousSessionId (fun _ => "0123456789abcdef")
        { headerSessionId := some "mj_client_w", bodyClientSessionId := none,
          ip := some "1.2.3.4", userAgent := some "UA" } = "mj_client_w" :=
  ((client_session_id_chooses_identity (fun _ => "0123456789abcdef")
      { headerSessionId := some "mj_client_w", bodyClientSessionId := none,
        ip := some "1.2.3.4", userAgent := some "UA" } none).1
    "mj_client_w" (by decide) (by decide)).1

end MicroJpeg
